import Mathlib

set_option maxHeartbeats 1000000
set_option maxRecDepth 8000

namespace Infera

/-- A 32-bit float value, modelled as its raw bit pattern. No claim in this
development performs arithmetic on tensor values, so `f32` data is opaque:
only its identity and position in buffers matter. -/
structure F32 where
  bits : Nat
deriving DecidableEq, Repr

/-- The `InferaInferenceResult` struct from `rust.h`: flat row-major `f32`
output data, the element count `len`, the output tensor shape `rows × cols`,
and a `status` that is `0` on success and `-1` on failure. -/
structure InferaInferenceResult where
  data : List F32
  len : Nat
  rows : Nat
  cols : Nat
  status : Int
deriving DecidableEq, Repr

/-- Outcome of a DuckDB adapter call: a normal return carrying the values
written to the result vector, or a thrown `InvalidInputException` carrying
its message. -/
inductive Outcome (α : Type) where
  | ok : α → Outcome α
  | thrown : String → Outcome α
deriving DecidableEq, Repr

/-- Mapping over the value of a normal return; a thrown exception propagates. -/
def Outcome.map {α β : Type} (f : α → β) : Outcome α → Outcome β
  | .ok a => .ok (f a)
  | .thrown e => .thrown e

/-- `GetInferaError` from `infera_extension.cpp`: reads the thread-local
`infera_last_error` message, falling back to "unknown error" when it is null. -/
def GetInferaError (lastError : Option String) : String :=
  lastError.getD "unknown error"

/-- Character-list prefix test. -/
def charsPrefix : List Char → List Char → Bool
  | [], _ => true
  | _ :: _, [] => false
  | a :: as, b :: bs => a == b && charsPrefix as bs

/-- Whether `p` is a leading substring of `s`: the test
`s.rfind(p, 0) == 0` performs in the C++ adapter. -/
def strStartsWith (s p : String) : Bool :=
  charsPrefix p.data s.data

/-- One feature cell of the argument chunk, as seen by `ExtractFeatures`:
a SQL NULL, a value of one of the four supported numeric types (already
coerced to `f32`; the numeric casts are opaque here), or a value of an
unsupported type carrying that type name for the error message. -/
inductive FeatureCell where
  | null
  | float (v : F32)
  | double (v : F32)
  | integer (v : F32)
  | bigint (v : F32)
  | unsupported (typeName : String)
deriving DecidableEq, Repr

/-- The per-cell switch of `ExtractFeatures`: NULL and unsupported types
throw, the four supported types yield the coerced `f32` value. -/
def coerceFeature : FeatureCell → Except String F32
  | .null => .error "Feature values cannot be NULL"
  | .float v => .ok v
  | .double v => .ok v
  | .integer v => .ok v
  | .bigint v => .ok v
  | .unsupported t => .error ("Unsupported feature type: " ++ t)

/-- The inner column loop of `ExtractFeatures` over one row's feature cells. -/
def extractRowFeatures : List FeatureCell → Except String (List F32)
  | [] => .ok []
  | c :: cs => do
    let v ← coerceFeature c
    let vs ← extractRowFeatures cs
    .ok (v :: vs)

/-- `ExtractFeatures` from `infera_extension.cpp`: walks the chunk row-major
(rows outer, feature columns inner), throwing on the first NULL or
unsupported cell, and produces the flat feature buffer. -/
def ExtractFeatures : List (List FeatureCell) → Except String (List F32)
  | [] => .ok []
  | r :: rs => do
    let vs ← extractRowFeatures r
    let rest ← ExtractFeatures rs
    .ok (vs ++ rest)

/-- The argument chunk of `infera_predict` / `infera_predict_multi`:
`columnCount` columns, of which column 0 holds the model name (read at row 0;
`none` is SQL NULL) and columns 1 .. `columnCount - 1` hold the features.
`featureRows` lists, per input row, the cells of those feature columns. -/
structure PredictArgs where
  columnCount : Nat
  modelName : Option String
  featureRows : List (List FeatureCell)

/-- `ValidateAndGetModelName` from `infera_extension.cpp`: requires at least
two columns and a non-NULL model name. -/
def ValidateAndGetModelName (args : PredictArgs) (funcName : String) :
    Except String String :=
  if args.columnCount < 2 then
    .error (funcName ++ "(model_name, feature1, ...) requires at least 2 arguments")
  else
    match args.modelName with
    | none => .error "Model name cannot be NULL"
    | some n => .ok n

/-- A run of a predict-style adapter: its outcome, whether the core prediction
function was invoked (each invocation allocates one `InferaInferenceResult`),
and how many times `infera_free_result` was called on that result. -/
structure AdapterRun (α : Type) where
  outcome : Outcome α
  coreCalled : Bool
  freeResultCalls : Nat
deriving DecidableEq, Repr

/-- The message built by `StringUtil::Format` on `Predict`'s output-shape check. -/
def shapeMismatchMsg (batchSize rows cols : Nat) : String :=
  "Model output shape mismatch. Expected (" ++ toString batchSize ++
    ", 1), but got (" ++ toString rows ++ ", " ++ toString cols ++ ")."

/-- `Predict` from `infera_extension.cpp` (the `infera_predict` adapter).
The core is an oracle `core name data rows cols` returning the
`InferaInferenceResult` together with the thread-local error message the call
leaves behind (`none` when it sets no error). Mirrors the source paths:
empty chunk returns early; validation or extraction failures throw before the
core is called; a core failure status throws WITHOUT freeing the result; a
row/column shape mismatch frees the result and throws; otherwise the first
`batchSize` output values are copied out and the result is freed. -/
def Predict (args : PredictArgs)
    (core : String → List F32 → Nat → Nat → InferaInferenceResult × Option String) :
    AdapterRun (List F32) :=
  if args.featureRows.length = 0 then ⟨.ok [], false, 0⟩ else
  match ValidateAndGetModelName args "infera_predict" with
  | .error e => ⟨.thrown e, false, 0⟩
  | .ok modelName =>
    let batchSize := args.featureRows.length
    let featureCount := args.columnCount - 1
    match ExtractFeatures args.featureRows with
    | .error e => ⟨.thrown e, false, 0⟩
    | .ok features =>
      let rc := core modelName features batchSize featureCount
      if rc.1.status ≠ 0 then
        ⟨.thrown ("Inference failed for model \x27" ++ modelName ++ "\x27: " ++
          GetInferaError rc.2), true, 0⟩
      else if rc.1.rows ≠ batchSize ∨ rc.1.cols ≠ 1 then
        ⟨.thrown (shapeMismatchMsg batchSize rc.1.rows rc.1.cols), true, 1⟩
      else
        ⟨.ok (rc.1.data.take batchSize), true, 1⟩

/-- Modelled from the spec: the Rust core's Model (its source and the
`infera://` graph handle are not in src/, only the C declarations in `rust.h`
are). A Model carries its declared input width and output width, extracted
from the parsed graph, and an opaque forward pass `forward rows data`
supplied by the underlying tensor-execution library (out of scope). -/
structure Model where
  inputWidth : Nat
  outputWidth : Nat
  forward : Nat → List F32 → List F32

/-- Modelled from the spec: the ModelRegistry, a name-to-Model store. -/
structure Registry where
  models : List (String × Model)

/-- Registry lookup by model name. -/
def Registry.find? (reg : Registry) (name : String) : Option Model :=
  match reg.models.find? (fun p => p.1 == name) with
  | some p => some p.2
  | none => none

/-- The sentinel result a failing core call returns: no data, status `-1`. -/
def failureResult : InferaInferenceResult :=
  ⟨[], 0, 0, 0, -1⟩

/-- Modelled from the spec: the core `infera_predict` (Rust side, not in
src/). Fails NotFound if the name is unregistered, fails InvalidInput if
`cols` does not match the Model's declared input width, otherwise runs the
forward pass over `rows` rows and returns a result whose `rows` matches the
input and whose `cols` is the declared output width. The second component is
the thread-local error message the call leaves behind (`none` on success);
the "Model not found:" prefix is the one the `UnloadModel` adapter tests. -/
def inferaPredict (reg : Registry) (name : String) (data : List F32)
    (rows cols : Nat) : InferaInferenceResult × Option String :=
  match reg.find? name with
  | none => (failureResult, some ("Model not found: " ++ name))
  | some m =>
    if cols ≠ m.inputWidth then
      (failureResult, some ("Invalid input: cols " ++ toString cols ++
        " does not match declared input width " ++ toString m.inputWidth))
    else
      let out := m.forward rows data
      (⟨out, out.length, rows, m.outputWidth, 0⟩, none)

/-- Native-endian reinterpretation of a byte sequence as `f32` values:
each group of four bytes becomes one opaque bit pattern. -/
def decodeF32s : List Nat → List F32
  | b0 :: b1 :: b2 :: b3 :: rest =>
    ⟨b0 + 256 * b1 + 65536 * b2 + 16777216 * b3⟩ :: decodeF32s rest
  | _ => []

/-- Modelled from the spec: the core `infera_predict_from_blob` (Rust side,
not in src/). Always fails InvalidInput when the byte length is not a
multiple of 4; otherwise `cols` is the Model's declared input width,
`rows = len / 4 / cols`, and it behaves like `inferaPredict`. -/
def inferaPredictFromBlob (reg : Registry) (name : String) (blob : List Nat) :
    InferaInferenceResult × Option String :=
  if blob.length % 4 ≠ 0 then
    (failureResult, some "Invalid input: blob length is not a multiple of 4")
  else
    match reg.find? name with
    | none => (failureResult, some ("Model not found: " ++ name))
    | some m =>
      let cols := m.inputWidth
      let rows := blob.length / 4 / cols
      let out := m.forward rows (decodeF32s blob)
      (⟨out, out.length, rows, m.outputWidth, 0⟩, none)

/-- `Predict` wired to the spec-modelled core: the oracle runs `inferaPredict`
against a fixed registry, and `GetInferaError` reads the thread-local error
that very call set. -/
def PredictAgainstCore (reg : Registry) (args : PredictArgs) :
    AdapterRun (List F32) :=
  Predict args (fun name data rows cols => inferaPredict reg name data rows cols)

/-- The message built by `StringUtil::Format` on `PredictMulti`'s row-count check. -/
def rowCountMismatchMsg (batchSize rows : Nat) : String :=
  "Model output row count mismatch. Expected " ++ toString batchSize ++
    ", but got " ++ toString rows ++ "."

/-- `PredictMulti` from `infera_extension.cpp` (the `infera_predict_multi`
adapter). Identical to `Predict` up to the core call; a core failure status
frees the result and throws; a row-count mismatch frees the result and
throws; otherwise each row's `cols` output values are emitted (their JSON
text rendering is host-side display and kept as the value lists here) and
the result is freed. -/
def PredictMulti (args : PredictArgs)
    (core : String → List F32 → Nat → Nat → InferaInferenceResult × Option String) :
    AdapterRun (List (List F32)) :=
  if args.featureRows.length = 0 then ⟨.ok [], false, 0⟩ else
  match ValidateAndGetModelName args "infera_predict_multi" with
  | .error e => ⟨.thrown e, false, 0⟩
  | .ok modelName =>
    let batchSize := args.featureRows.length
    let featureCount := args.columnCount - 1
    match ExtractFeatures args.featureRows with
    | .error e => ⟨.thrown e, false, 0⟩
    | .ok features =>
      let rc := core modelName features batchSize featureCount
      if rc.1.status ≠ 0 then
        ⟨.thrown ("Inference failed for model \x27" ++ modelName ++ "\x27: " ++
          GetInferaError rc.2), true, 1⟩
      else if rc.1.rows ≠ batchSize then
        ⟨.thrown (rowCountMismatchMsg batchSize rc.1.rows), true, 1⟩
      else
        ⟨.ok ((List.range batchSize).map
          (fun i => (rc.1.data.drop (i * rc.1.cols)).take rc.1.cols)), true, 1⟩

/-- One row of the `infera_predict_from_blob` argument chunk: the model-name
cell and the BLOB cell (bytes); `none` is SQL NULL. -/
structure BlobRow where
  modelName : Option String
  blob : Option (List Nat)
deriving DecidableEq, Repr

/-- The per-row loop of `PredictFromBlob`: a row with a NULL name or NULL
blob yields a NULL output value and the loop continues with the next row;
otherwise the core is called for that row alone, a failure status frees the
result and throws (aborting the loop), and a success emits the result's
`len` output values for that row and frees the result. -/
def processBlobRows
    (core : String → List Nat → InferaInferenceResult × Option String) :
    List BlobRow → Outcome (List (Option (List F32)))
  | [] => .ok []
  | r :: rs =>
    match r.modelName, r.blob with
    | some name, some blob =>
      let rc := core name blob
      if rc.1.status ≠ 0 then
        .thrown ("Inference failed for model \x27" ++ name ++ "\x27: " ++
          GetInferaError rc.2)
      else
        (processBlobRows core rs).map
          (fun out => some (rc.1.data.take rc.1.len) :: out)
    | _, _ =>
      (processBlobRows core rs).map (fun out => (none : Option (List F32)) :: out)

/-- `PredictFromBlob` from `infera_extension.cpp`: requires exactly two
columns, returns early on an empty chunk, and otherwise runs the per-row loop. -/
def PredictFromBlob (columnCount : Nat) (rows : List BlobRow)
    (core : String → List Nat → InferaInferenceResult × Option String) :
    Outcome (List (Option (List F32))) :=
  if columnCount ≠ 2 then
    .thrown "infera_predict_from_blob(model_name, input_blob) requires 2 arguments"
  else if rows.length = 0 then .ok []
  else processBlobRows core rows

/-- The output the blob loop produces for one row, as a function of that row
alone: NULL name or NULL blob gives NULL, otherwise the core result's `len`
leading data values. -/
def rowOutput
    (core : String → List Nat → InferaInferenceResult × Option String)
    (r : BlobRow) : Option (List F32) :=
  match r.modelName, r.blob with
  | some name, some blob => some ((core name blob).1.data.take (core name blob).1.len)
  | _, _ => none

/-- A blob row on which the loop does not throw: it is NULL (skipped) or its
core call succeeds. -/
def blobRowOk
    (core : String → List Nat → InferaInferenceResult × Option String)
    (r : BlobRow) : Prop :=
  match r.modelName, r.blob with
  | some name, some blob => (core name blob).1.status = 0
  | _, _ => True

/-- `UnloadModel` from `infera_extension.cpp` (the `infera_unload_model`
adapter), modelled for nonempty chunks (a size-0 chunk returns before reading
any argument). `coreRc` is the return code of `infera_unload_model` on the
given name and `lastError` the thread-local error it leaves. A nonzero code
whose error message does not start with "Model not found:" throws; a
model-not-found failure falls through, and the adapter always stores `true`. -/
def UnloadModel (columnCount : Nat) (modelName : Option String)
    (coreRc : Int) (lastError : Option String) : Outcome Bool :=
  if columnCount ≠ 1 then
    .thrown "infera_unload_model(model_name) expects exactly 1 argument"
  else
    match modelName with
    | none => .thrown "Model name cannot be NULL"
    | some name =>
      if coreRc ≠ 0 ∧ ¬ strStartsWith (GetInferaError lastError) "Model not found:" then
        .thrown ("Failed to unload model \x27" ++ name ++ "\x27: " ++
          GetInferaError lastError)
      else
        .ok true

/-- A run of the `LoadModel` adapter: its outcome, the registry state after
the call, and whether the core `infera_load_model` was invoked at all. -/
structure LoadRun where
  outcome : Outcome Bool
  registry : Registry
  coreCalled : Bool

/-- `LoadModel` from `infera_extension.cpp` (the `infera_load_model` adapter),
modelled for nonempty chunks. The core is an oracle
`coreLoad name path reg = (new registry, return code, last error)`. NULL
arguments and an empty model name throw before the core is invoked; a
nonzero core return code throws with the core's error message; otherwise the
adapter stores `true`. -/
def LoadModel (columnCount : Nat) (modelName path : Option String)
    (coreLoad : String → String → Registry → Registry × Int × Option String)
    (reg : Registry) : LoadRun :=
  if columnCount ≠ 2 then
    ⟨.thrown "infera_load_model(model_name, path) expects exactly 2 arguments", reg, false⟩
  else
    match modelName, path with
    | some name, some pathStr =>
      if name.isEmpty then
        ⟨.thrown "Model name cannot be empty", reg, false⟩
      else
        let r := coreLoad name pathStr reg
        if r.2.1 ≠ 0 then
          ⟨.thrown ("Failed to load model \x27" ++ name ++ "\x27: " ++
            GetInferaError r.2.2), r.1, true⟩
        else
          ⟨.ok true, r.1, true⟩
    | _, _ => ⟨.thrown "Model name and path cannot be NULL", reg, false⟩

/-- The DuckDB logical types appearing in `LoadInternal`'s registrations. -/
inductive LType where
  | VARCHAR
  | FLOAT
  | BOOLEAN
  | BLOB
  | LIST (element : LType)
deriving DecidableEq, Repr

/-- One `ScalarFunction` registration: SQL name, argument types, return type. -/
structure ScalarFunctionReg where
  name : String
  argTypes : List LType
  returnType : LType
deriving DecidableEq, Repr

/-- The argument-type list the registration loop builds for a given feature
count: the VARCHAR model name followed by that many FLOAT features. -/
def predictArgTypes (featureCount : Nat) : List LType :=
  LType.VARCHAR :: List.replicate featureCount LType.FLOAT

/-- `LoadInternal` from `infera_extension.cpp`: the full list of scalar
functions registered with the loader, in registration order. The loop runs
`feature_count` from 1 to `MAX_FEATURES = 63` and registers one
`infera_predict` and one `infera_predict_multi` overload per count. -/
def LoadInternal : List ScalarFunctionReg :=
  [⟨"infera_load_model", [.VARCHAR, .VARCHAR], .BOOLEAN⟩,
   ⟨"infera_unload_model", [.VARCHAR], .BOOLEAN⟩] ++
  (List.range 63).flatMap (fun i =>
    let featureCount := i + 1
    [⟨"infera_predict", predictArgTypes featureCount, .FLOAT⟩,
     ⟨"infera_predict_multi", predictArgTypes featureCount, .VARCHAR⟩]) ++
  [⟨"infera_predict_from_blob", [.VARCHAR, .BLOB], .LIST .FLOAT⟩,
   ⟨"infera_get_loaded_models", [], .VARCHAR⟩,
   ⟨"infera_get_model_info", [.VARCHAR], .VARCHAR⟩,
   ⟨"infera_get_version", [], .VARCHAR⟩,
   ⟨"infera_set_autoload_dir", [.VARCHAR], .VARCHAR⟩]

/-- Modelled from the spec: one RemoteCache entry (the Rust-side cache behind
`infera_get_cache_info` is not in src/): local file path, origin URI, byte
size, last-access time. -/
structure CacheEntry where
  path : String
  uri : String
  size : Nat
  lastAccess : Nat
deriving DecidableEq, Repr

/-- Total byte size of a list of cache entries. -/
def totalSize (es : List CacheEntry) : Nat :=
  (es.map CacheEntry.size).sum

/-- The least last-access time among the entries (0 for an empty list). -/
def minAccess : List CacheEntry → Nat
  | [] => 0
  | [e] => e.lastAccess
  | e :: rest => min e.lastAccess (minAccess rest)

/-- Removes the first entry carrying the given last-access time. -/
def removeFirstAt (t : Nat) : List CacheEntry → List CacheEntry
  | [] => []
  | e :: rest => if e.lastAccess = t then rest else e :: removeFirstAt t rest

/-- Evicts the least-recently-used entry. -/
def removeLRU (es : List CacheEntry) : List CacheEntry :=
  removeFirstAt (minAccess es) es

/-- Fuelled eviction loop: while the total size exceeds the limit, drop the
least-recently-used entry. The fuel is instantiated with the entry count,
which bounds the number of evictions. -/
def evictFuel (limit : Nat) : Nat → List CacheEntry → List CacheEntry
  | 0, es => es
  | fuel + 1, es =>
    if totalSize es ≤ limit then es else evictFuel limit fuel (removeLRU es)

/-- Modelled from the spec: evict least-recently-used entries until the total
size is at most the limit. -/
def evictLRU (limit : Nat) (es : List CacheEntry) : List CacheEntry :=
  evictFuel limit es.length es

/-- Modelled from the spec: the RemoteCache state — cache directory, entries,
configured size limit, and a logical clock supplying last-access times. -/
structure RemoteCache where
  cacheDir : String
  entries : List CacheEntry
  sizeLimit : Nat
  clock : Nat
deriving DecidableEq, Repr

/-- Updates the last-access time of the entry for `uri`. -/
def touch (uri : String) (now : Nat) (es : List CacheEntry) : List CacheEntry :=
  es.map (fun e => if e.uri == uri then { e with lastAccess := now } else e)

/-- Modelled from the spec: `fetch(uri)`. On a hit, return the cached path
and update last-access; on a miss, download (`downloadSize` bytes), record a
CacheEntry, then evict least-recently-used entries until the total size is
at most the limit (eviction runs after insertion). -/
def fetch (c : RemoteCache) (uri : String) (downloadSize : Nat) : RemoteCache :=
  if c.entries.any (fun e => e.uri == uri) then
    { c with entries := touch uri c.clock c.entries, clock := c.clock + 1 }
  else
    let entry : CacheEntry := ⟨c.cacheDir ++ "/" ++ uri, uri, downloadSize, c.clock⟩
    { c with entries := evictLRU c.sizeLimit (c.entries ++ [entry]),
             clock := c.clock + 1 }

/-- The fields of the `infera_get_cache_info` JSON object. -/
structure CacheStats where
  cache_dir : String
  total_size_bytes : Nat
  file_count : Nat
  size_limit_bytes : Nat
deriving DecidableEq, Repr

/-- Modelled from the spec: `stats()` as reported by `infera_get_cache_info`. -/
def stats (c : RemoteCache) : CacheStats :=
  ⟨c.cacheDir, totalSize c.entries, c.entries.length, c.sizeLimit⟩

/-- Runs a finite sequence of fetch calls, each given as (uri, download size). -/
def applyFetches (c : RemoteCache) : List (String × Nat) → RemoteCache
  | [] => c
  | (uri, sz) :: rest => applyFetches (fetch c uri sz) rest

theorem totalSize_touch (uri : String) (now : Nat) :
    ∀ es : List CacheEntry, totalSize (touch uri now es) = totalSize es := by
  intro es
  induction es with
  | nil => rfl
  | cons e rest ih =>
    simp only [touch, List.map_cons, totalSize, List.sum_cons] at *
    rw [ih]
    congr 1
    split <;> rfl

theorem minAccess_mem :
    ∀ es : List CacheEntry, es ≠ [] → ∃ e ∈ es, e.lastAccess = minAccess es := by
  intro es
  induction es with
  | nil => intro h; exact absurd rfl h
  | cons e rest ih =>
    intro _
    cases rest with
    | nil => exact ⟨e, List.mem_cons_self e [], rfl⟩
    | cons e2 r2 =>
      rcases le_total e.lastAccess (minAccess (e2 :: r2)) with h | h
      · exact ⟨e, List.mem_cons_self e _, (min_eq_left h).symm⟩
      · obtain ⟨f, hf, hfe⟩ := ih (by simp)
        refine ⟨f, List.mem_cons_of_mem e hf, ?_⟩
        rw [hfe]
        show minAccess (e2 :: r2) = minAccess (e :: e2 :: r2)
        rw [show minAccess (e :: e2 :: r2) =
              min e.lastAccess (minAccess (e2 :: r2)) from rfl,
          min_eq_right h]

theorem removeFirstAt_length (t : Nat) :
    ∀ es : List CacheEntry, (∃ e ∈ es, e.lastAccess = t) →
    (removeFirstAt t es).length + 1 = es.length := by
  intro es
  induction es with
  | nil => rintro ⟨e, h, -⟩; cases h
  | cons e rest ih =>
    rintro ⟨f, hf, hft⟩
    by_cases he : e.lastAccess = t
    · simp [removeFirstAt, he]
    · have hmem : f ∈ rest := by
        rcases List.mem_cons.mp hf with rfl | h
        · exact absurd hft he
        · exact h
      simp only [removeFirstAt, if_neg he, List.length_cons]
      rw [← ih ⟨f, hmem, hft⟩]

theorem removeLRU_length (es : List CacheEntry) (h : es ≠ []) :
    (removeLRU es).length + 1 = es.length := by
  obtain ⟨e, he, ht⟩ := minAccess_mem es h
  exact removeFirstAt_length _ es ⟨e, he, ht⟩

theorem evictFuel_totalSize_le (limit : Nat) :
    ∀ fuel es, es.length ≤ fuel → totalSize (evictFuel limit fuel es) ≤ limit := by
  intro fuel
  induction fuel with
  | zero =>
    intro es h
    have : es = [] := List.eq_nil_of_length_eq_zero (Nat.le_zero.mp h)
    subst this
    simp [evictFuel, totalSize]
  | succ n ih =>
    intro es h
    rw [evictFuel]
    split
    · assumption
    · next hgt =>
      have hne : es ≠ [] := by
        rintro rfl
        exact hgt (by simp [totalSize])
      apply ih
      have := removeLRU_length es hne
      omega

theorem evictLRU_totalSize_le (limit : Nat) (es : List CacheEntry) :
    totalSize (evictLRU limit es) ≤ limit :=
  evictFuel_totalSize_le limit es.length es le_rfl

theorem fetch_sizeLimit (c : RemoteCache) (uri : String) (sz : Nat) :
    (fetch c uri sz).sizeLimit = c.sizeLimit := by
  rw [fetch]
  split <;> rfl

theorem fetch_totalSize_le (c : RemoteCache) (uri : String) (sz : Nat)
    (h : totalSize c.entries ≤ c.sizeLimit) :
    totalSize (fetch c uri sz).entries ≤ (fetch c uri sz).sizeLimit := by
  rw [fetch]
  split
  · simpa [totalSize_touch] using h
  · simpa using evictLRU_totalSize_le c.sizeLimit _

theorem applyFetches_invariant (ops : List (String × Nat)) :
    ∀ c : RemoteCache, totalSize c.entries ≤ c.sizeLimit →
    totalSize (applyFetches c ops).entries ≤ (applyFetches c ops).sizeLimit := by
  induction ops with
  | nil => intro c h; exact h
  | cons op rest ih =>
    intro c h
    obtain ⟨uri, sz⟩ := op
    rw [applyFetches]
    exact ih (fetch c uri sz) (fetch_totalSize_le c uri sz h)

/-- Claim C2: after any finite sequence of fetch calls starting from a cache
state satisfying the size invariant (in particular a fresh empty cache),
`stats` reports `total_size_bytes ≤ size_limit_bytes`: every insertion
completes with the eviction loop having brought the total size back under
the configured limit. -/
theorem cache_total_size_le_limit (c : RemoteCache) (ops : List (String × Nat))
    (h : (stats c).total_size_bytes ≤ (stats c).size_limit_bytes) :
    (stats (applyFetches c ops)).total_size_bytes ≤
      (stats (applyFetches c ops)).size_limit_bytes := by
  simpa [stats] using applyFetches_invariant ops c (by simpa [stats] using h)

theorem cache_total_size_le_limit_witness :
    ((stats (⟨"/cache", [], 10, 0⟩ : RemoteCache)).total_size_bytes ≤
      (stats (⟨"/cache", [], 10, 0⟩ : RemoteCache)).size_limit_bytes) ∧
    (stats (applyFetches ⟨"/cache", [], 10, 0⟩
        [("u", 6), ("v", 7), ("u", 2), ("w", 9)])).total_size_bytes ≤
      (stats (applyFetches ⟨"/cache", [], 10, 0⟩
        [("u", 6), ("v", 7), ("u", 2), ("w", 9)])).size_limit_bytes :=
  ⟨by decide, cache_total_size_le_limit ⟨"/cache", [], 10, 0⟩
    [("u", 6), ("v", 7), ("u", 2), ("w", 9)] (by decide)⟩

theorem Predict_reaches_core (args : PredictArgs)
    (core : String → List F32 → Nat → Nat → InferaInferenceResult × Option String)
    (name : String) (features : List F32)
    (hname : args.modelName = some name)
    (hcols : 2 ≤ args.columnCount)
    (hrows : args.featureRows ≠ [])
    (hex : ExtractFeatures args.featureRows = .ok features) :
    Predict args core =
      if (core name features args.featureRows.length (args.columnCount - 1)).1.status ≠ 0 then
        ⟨.thrown ("Inference failed for model \x27" ++ name ++ "\x27: " ++
          GetInferaError (core name features args.featureRows.length (args.columnCount - 1)).2),
         true, 0⟩
      else if (core name features args.featureRows.length (args.columnCount - 1)).1.rows ≠
            args.featureRows.length ∨
          (core name features args.featureRows.length (args.columnCount - 1)).1.cols ≠ 1 then
        ⟨.thrown (shapeMismatchMsg args.featureRows.length
          (core name features args.featureRows.length (args.columnCount - 1)).1.rows
          (core name features args.featureRows.length (args.columnCount - 1)).1.cols), true, 1⟩
      else
        ⟨.ok ((core name features args.featureRows.length (args.columnCount - 1)).1.data.take
          args.featureRows.length), true, 1⟩ := by
  have hlen : ¬ args.featureRows.length = 0 := by
    simpa [List.length_eq_zero] using hrows
  have hv : ValidateAndGetModelName args "infera_predict" = .ok name := by
    rw [ValidateAndGetModelName, if_neg (by omega), hname]
  rw [Predict, if_neg hlen, hv, hex]

/-- Claim C1, failing path: the `Predict` adapter evaluated at a one-row call
for a model that was never loaded. The core prediction is invoked, so an
`InferaInferenceResult` is allocated, and the adapter throws with
`freeResultCalls = 0`: the failure path leaves the allocation unreleased,
although `rust.h` requires `infera_free_result` on every returned result (as
`PredictMulti` and `PredictFromBlob` do on the same path). -/
theorem predict_failure_result_not_freed :
    PredictAgainstCore ⟨[]⟩ ⟨2, some "no-such-model", [[.float ⟨0⟩]]⟩ =
      ⟨.thrown ("Inference failed for model \x27no-such-model\x27: " ++
        ("Model not found: " ++ "no-such-model")), true, 0⟩ := by
  decide

/-- Claim C3: `predict` on a model name that was never loaded fails NotFound
for every input: the spec-modelled core returns a result with status `-1`,
and the `Predict` adapter raises an error whose message carries the core's
thread-local error message, returning no data values. -/
theorem predict_never_loaded_notfound (reg : Registry) (args : PredictArgs)
    (name : String) (features : List F32)
    (hname : args.modelName = some name)
    (hcols : 2 ≤ args.columnCount)
    (hrows : args.featureRows ≠ [])
    (hex : ExtractFeatures args.featureRows = .ok features)
    (hfind : reg.find? name = none) :
    (inferaPredict reg name features args.featureRows.length
      (args.columnCount - 1)).1.status = -1 ∧
    (PredictAgainstCore reg args).outcome =
      .thrown ("Inference failed for model \x27" ++ name ++ "\x27: " ++
        ("Model not found: " ++ name)) := by
  have hcore : inferaPredict reg name features args.featureRows.length
      (args.columnCount - 1) =
      (failureResult, some ("Model not found: " ++ name)) := by
    rw [inferaPredict, hfind]
  refine ⟨by rw [hcore]; rfl, ?_⟩
  rw [PredictAgainstCore, Predict_reaches_core args _ name features hname hcols hrows hex]
  rw [hcore, if_pos (by norm_num [failureResult])]
  rfl

theorem predict_never_loaded_notfound_witness :
    (⟨[]⟩ : Registry).find? "m1" = none ∧
    (PredictAgainstCore ⟨[]⟩ ⟨2, some "m1", [[.float ⟨1⟩]]⟩).outcome =
      .thrown ("Inference failed for model \x27m1\x27: " ++
        ("Model not found: " ++ "m1")) :=
  ⟨rfl, (predict_never_loaded_notfound ⟨[]⟩ ⟨2, some "m1", [[.float ⟨1⟩]]⟩ "m1"
    [⟨1⟩] rfl (by decide) (by decide) rfl rfl).2⟩

/-- Claim C4: for every loaded model and every input whose column count
differs from the model's declared input width, predict fails
InvalidInput: the spec-modelled core returns a failure-status result and the
`Predict` adapter throws, so the caller receives no data. -/
theorem predict_width_mismatch_fails (reg : Registry) (args : PredictArgs)
    (name : String) (m : Model) (features : List F32)
    (hname : args.modelName = some name)
    (hcols : 2 ≤ args.columnCount)
    (hrows : args.featureRows ≠ [])
    (hex : ExtractFeatures args.featureRows = .ok features)
    (hfind : reg.find? name = some m)
    (hw : args.columnCount - 1 ≠ m.inputWidth) :
    (inferaPredict reg name features args.featureRows.length
      (args.columnCount - 1)).1.status = -1 ∧
    ∀ out, (PredictAgainstCore reg args).outcome ≠ .ok out := by
  have hcore : inferaPredict reg name features args.featureRows.length
      (args.columnCount - 1) =
      (failureResult, some ("Invalid input: cols " ++ toString (args.columnCount - 1) ++
        " does not match declared input width " ++ toString m.inputWidth)) := by
    rw [inferaPredict, hfind]
    simp only [if_pos hw]
  refine ⟨by rw [hcore]; rfl, ?_⟩
  intro out
  rw [PredictAgainstCore, Predict_reaches_core args _ name features hname hcols hrows hex]
  rw [hcore, if_pos (by norm_num [failureResult])]
  simp

theorem predict_width_mismatch_fails_witness :
    (⟨[("m1", ⟨3, 1, fun _ _ => []⟩)]⟩ : Registry).find? "m1" =
      some ⟨3, 1, fun _ _ => []⟩ ∧
    ∀ out, (PredictAgainstCore ⟨[("m1", ⟨3, 1, fun _ _ => []⟩)]⟩
      ⟨2, some "m1", [[.float ⟨1⟩]]⟩).outcome ≠ .ok out :=
  ⟨rfl, (predict_width_mismatch_fails ⟨[("m1", ⟨3, 1, fun _ _ => []⟩)]⟩
    ⟨2, some "m1", [[.float ⟨1⟩]]⟩ "m1" ⟨3, 1, fun _ _ => []⟩ [⟨1⟩]
    rfl (by decide) (by decide) rfl rfl (by decide)).2⟩

/-- Claim C10: the `Predict` adapter returns per-row float values only when
the successful core result has `rows` equal to the input batch size and
exactly one output column; for every successful core result with a different
row count or with `cols ≠ 1`, it frees the result exactly once and raises a
shape-mismatch error, returning no data. -/
theorem predict_output_shape_gate (args : PredictArgs)
    (core : String → List F32 → Nat → Nat → InferaInferenceResult × Option String)
    (name : String) (features : List F32)
    (hname : args.modelName = some name)
    (hcols : 2 ≤ args.columnCount)
    (hrows : args.featureRows ≠ [])
    (hex : ExtractFeatures args.featureRows = .ok features)
    (hst : (core name features args.featureRows.length (args.columnCount - 1)).1.status = 0) :
    (((core name features args.featureRows.length (args.columnCount - 1)).1.rows ≠
        args.featureRows.length ∨
      (core name features args.featureRows.length (args.columnCount - 1)).1.cols ≠ 1) →
      (Predict args core).outcome = .thrown (shapeMismatchMsg args.featureRows.length
        (core name features args.featureRows.length (args.columnCount - 1)).1.rows
        (core name features args.featureRows.length (args.columnCount - 1)).1.cols) ∧
      (Predict args core).freeResultCalls = 1) ∧
    ∀ out, (Predict args core).outcome = .ok out →
      (core name features args.featureRows.length (args.columnCount - 1)).1.rows =
        args.featureRows.length ∧
      (core name features args.featureRows.length (args.columnCount - 1)).1.cols = 1 := by
  rw [Predict_reaches_core args core name features hname hcols hrows hex]
  rw [if_neg (by simp [hst])]
  constructor
  · intro hmis
    rw [if_pos hmis]
    exact ⟨rfl, rfl⟩
  · intro out
    by_cases hmis : (core name features args.featureRows.length
        (args.columnCount - 1)).1.rows ≠ args.featureRows.length ∨
      (core name features args.featureRows.length (args.columnCount - 1)).1.cols ≠ 1
    · rw [if_pos hmis]
      intro h
      cases h
    · rw [if_neg hmis]
      intro _
      push_neg at hmis
      exact hmis

theorem predict_output_shape_gate_witness :
    ((fun (_ : String) (_ : List F32) (rows : Nat) (_ : Nat) =>
        ((⟨[⟨5⟩, ⟨6⟩], 2, rows, 2, 0⟩ : InferaInferenceResult), (none : Option String)))
      "m1" [⟨1⟩] 1 1).1.status = 0 ∧
    (Predict ⟨2, some "m1", [[.float ⟨1⟩]]⟩
      (fun _ _ rows _ => (⟨[⟨5⟩, ⟨6⟩], 2, rows, 2, 0⟩, none))).outcome =
        .thrown (shapeMismatchMsg 1 1 2) ∧
    (Predict ⟨2, some "m1", [[.float ⟨1⟩]]⟩
      (fun _ _ rows _ => (⟨[⟨5⟩, ⟨6⟩], 2, rows, 2, 0⟩, none))).freeResultCalls = 1 :=
  ⟨rfl, by
    have h := (predict_output_shape_gate ⟨2, some "m1", [[.float ⟨1⟩]]⟩
      (fun _ _ rows _ => (⟨[⟨5⟩, ⟨6⟩], 2, rows, 2, 0⟩, none)) "m1" [⟨1⟩]
      rfl (by decide) (by decide) rfl rfl).1 (by decide)
    exact h⟩

/-- Claim C5: for every model name and every byte sequence whose length is
not a multiple of 4, the spec-modelled core `infera_predict_from_blob` fails
InvalidInput: the returned result has failure status and carries no data. -/
theorem predict_from_blob_bad_length (reg : Registry) (name : String)
    (blob : List Nat) (h : blob.length % 4 ≠ 0) :
    (inferaPredictFromBlob reg name blob).1.status = -1 ∧
    (inferaPredictFromBlob reg name blob).1.data = [] ∧
    (inferaPredictFromBlob reg name blob).1.len = 0 := by
  rw [inferaPredictFromBlob, if_pos h]
  exact ⟨rfl, rfl, rfl⟩

theorem predict_from_blob_bad_length_witness :
    ([0, 0, 0] : List Nat).length % 4 ≠ 0 ∧
    (inferaPredictFromBlob ⟨[]⟩ "m1" [0, 0, 0]).1.status = -1 :=
  ⟨by decide, (predict_from_blob_bad_length ⟨[]⟩ "m1" [0, 0, 0] (by decide)).1⟩

/-- Claim C6: the `UnloadModel` adapter follows one consistent policy for
names that are not registered: for every non-NULL name whose core unload
either succeeds or fails with a model-not-found error, it returns `true`,
treating not-found as idempotent success. -/
theorem unload_not_found_idempotent_true (name : String) (coreRc : Int)
    (lastError : Option String)
    (h : coreRc = 0 ∨ (coreRc ≠ 0 ∧
      strStartsWith (GetInferaError lastError) "Model not found:")) :
    UnloadModel 1 (some name) coreRc lastError = .ok true := by
  rw [UnloadModel, if_neg (by omega)]
  rcases h with h | ⟨-, h2⟩
  · rw [if_neg]
    rintro ⟨h1, -⟩
    exact h1 h
  · rw [if_neg]
    rintro ⟨-, hn⟩
    exact hn h2

theorem unload_not_found_idempotent_true_witness :
    ((-1 : Int) = 0 ∨ ((-1 : Int) ≠ 0 ∧
      strStartsWith (GetInferaError (some "Model not found: does-not-exist"))
        "Model not found:")) ∧
    UnloadModel 1 (some "does-not-exist") (-1)
      (some "Model not found: does-not-exist") = .ok true :=
  ⟨Or.inr ⟨by decide, by decide⟩,
   unload_not_found_idempotent_true "does-not-exist" (-1)
     (some "Model not found: does-not-exist") (Or.inr ⟨by decide, by decide⟩)⟩

/-- Claim C7: for every source path, `LoadModel` with an empty model name
throws InvalidInput before invoking the core load (for every core load
function, the registry is returned unchanged and `coreCalled` is false). -/
theorem load_model_empty_name_rejected (path : String)
    (coreLoad : String → String → Registry → Registry × Int × Option String)
    (reg : Registry) :
    LoadModel 2 (some "") (some path) coreLoad reg =
      ⟨.thrown "Model name cannot be empty", reg, false⟩ := by
  rfl

/-- Claim C8: `LoadInternal` registers `infera_predict` and
`infera_predict_multi` overloads for every feature count from 1 to 63
inclusive (VARCHAR model name plus that many FLOAT features), and registers
no overload of either taking more than 63 features (more than 64 arguments). -/
theorem load_internal_feature_overloads :
    (∀ n, 1 ≤ n → n ≤ 63 →
      (⟨"infera_predict", predictArgTypes n, .FLOAT⟩ : ScalarFunctionReg) ∈
        LoadInternal ∧
      (⟨"infera_predict_multi", predictArgTypes n, .VARCHAR⟩ : ScalarFunctionReg) ∈
        LoadInternal) ∧
    ∀ r ∈ LoadInternal,
      (r.name = "infera_predict" ∨ r.name = "infera_predict_multi") →
      r.argTypes.length ≤ 64 := by
  constructor
  · intro n h1 h63
    have hn : n - 1 + 1 = n := by omega
    constructor
    · simp only [LoadInternal, List.append_assoc, List.mem_append,
        List.mem_flatMap, List.mem_range]
      refine Or.inr (Or.inl ⟨n - 1, by omega, ?_⟩)
      rw [hn]
      exact List.mem_cons_self _ _
    · simp only [LoadInternal, List.append_assoc, List.mem_append,
        List.mem_flatMap, List.mem_range]
      refine Or.inr (Or.inl ⟨n - 1, by omega, ?_⟩)
      rw [hn]
      exact List.mem_cons_of_mem _ (List.mem_cons_self _ _)
  · decide

theorem load_internal_feature_overloads_witness :
    (1 ≤ 63 ∧ 63 ≤ 63) ∧
    (⟨"infera_predict", predictArgTypes 63, .FLOAT⟩ : ScalarFunctionReg) ∈
      LoadInternal ∧
    (⟨"infera_predict_multi", predictArgTypes 63, .VARCHAR⟩ : ScalarFunctionReg) ∈
      LoadInternal :=
  ⟨⟨by decide, by decide⟩,
   load_internal_feature_overloads.1 63 (by decide) (by decide)⟩

/-- Claim C9: in the `PredictFromBlob` per-row loop, every row whose model
name or blob value is NULL produces a NULL output for that row without
raising an error, and the remaining rows are still processed; and rows are
handled independently in order: whenever every row is NULL or core-successful,
the output is exactly the in-order list of per-row outputs, each a function
of its own row alone. -/
theorem blob_null_rows_yield_null_and_continue
    (core : String → List Nat → InferaInferenceResult × Option String) :
    (∀ r rest, (r.modelName = none ∨ r.blob = none) →
      processBlobRows core (r :: rest) =
        (processBlobRows core rest).map
          (fun out => (none : Option (List F32)) :: out)) ∧
    ∀ rows, (∀ r ∈ rows, blobRowOk core r) →
      processBlobRows core rows = .ok (rows.map (rowOutput core)) := by
  constructor
  · rintro ⟨mn, bl⟩ rest (h | h)
    · simp only at h
      subst h
      rfl
    · simp only at h
      subst h
      cases mn <;> rfl
  · intro rows
    induction rows with
    | nil => intro _; rfl
    | cons r rest ih =>
      intro h
      have hr := h r (List.mem_cons_self r rest)
      have hrest : ∀ x ∈ rest, blobRowOk core x :=
        fun x hx => h x (List.mem_cons_of_mem r hx)
      obtain ⟨mn, bl⟩ := r
      cases mn with
      | none =>
        have hred : processBlobRows core (⟨none, bl⟩ :: rest) =
            (processBlobRows core rest).map
              (fun out => (none : Option (List F32)) :: out) := by
          cases bl <;> rfl
        rw [hred, ih hrest]
        cases bl <;> rfl
      | some name =>
        cases bl with
        | none =>
          have hred : processBlobRows core (⟨some name, none⟩ :: rest) =
              (processBlobRows core rest).map
                (fun out => (none : Option (List F32)) :: out) := rfl
          rw [hred, ih hrest]
          rfl
        | some blob =>
          have hst : (core name blob).1.status = 0 := hr
          have hred : processBlobRows core (⟨some name, some blob⟩ :: rest) =
              (if (core name blob).1.status ≠ 0 then
                Outcome.thrown ("Inference failed for model \x27" ++ name ++
                  "\x27: " ++ GetInferaError (core name blob).2)
              else (processBlobRows core rest).map
                (fun out =>
                  some ((core name blob).1.data.take (core name blob).1.len) :: out)) :=
            rfl
          rw [hred, if_neg (by simp [hst]), ih hrest]
          rfl

theorem blob_null_rows_yield_null_and_continue_witness :
    ((⟨none, some [0]⟩ : BlobRow).modelName = none ∨
      (⟨none, some [0]⟩ : BlobRow).blob = none) ∧
    processBlobRows (fun _ _ => (⟨[⟨5⟩], 1, 1, 1, 0⟩, none))
        [⟨none, some [0]⟩, ⟨some "m1", some [0, 0, 0, 0]⟩] =
      .ok [none, some [⟨5⟩]] := by
  refine ⟨Or.inl rfl, ?_⟩
  have h := (blob_null_rows_yield_null_and_continue
      (fun _ _ => (⟨[⟨5⟩], 1, 1, 1, 0⟩, none))).2
    [⟨none, some [0]⟩, ⟨some "m1", some [0, 0, 0, 0]⟩] ?_
  · exact h.trans (by decide)
  · intro r hrr
    rcases List.mem_cons.mp hrr with rfl | hrr
    · trivial
    · rcases List.mem_cons.mp hrr with rfl | hrr
      · rfl
      · cases hrr

end Infera





